import Mathlib

/-!
Verification development for the label-information-extraction pipeline of the
3D-Filament-Finder repository.  The Python sources `utils/ocr.py`,
`utils/lookup.py`, `utils/barcode_lookup.py` and the `/api/scan` orchestrator in
`main.py` are shallowly embedded below.  Regular-expression searches from the
source are translated into executable scanners over `List Char` that reproduce
the leftmost-match and backtracking behaviour of the concrete patterns used;
network and OCR-engine effects are passed in as explicit oracle arguments, with
the caught-failure outcomes of the Python code represented as `Option`/`Except`
values.  Python truthiness tests (`if not d.get(k)`) are modelled by explicit
`pyTruthy*` functions (empty string, zero, and `None` are falsy).
-/

/-- ASCII-case-insensitive character comparison, as used by `re.IGNORECASE`. -/
def chEq (a b : Char) : Bool := a.toLower == b.toLower

/-- Python `\w` on the ASCII inputs of this pipeline: letters, digits, underscore. -/
def isWordChar (c : Char) : Bool := c.isAlphanum || c == '_'

/-- Python `\s` membership (space, tab, newline, carriage return, vertical tab, form feed). -/
def isPySpace (c : Char) : Bool :=
  c == ' ' || c == '\t' || c == '\n' || c == '\r' || c == '\x0b' || c == '\x0c'

/-- Case-insensitive literal match of `pat` at the head of the string; returns the remainder. -/
def matchCI : List Char → List Char → Option (List Char)
  | [], cs => some cs
  | _ :: _, [] => none
  | p :: ps, c :: cs => if chEq p c then matchCI ps cs else none

/-- Case-sensitive literal match at the head of the string; returns the remainder. -/
def litMatch : List Char → List Char → Option (List Char)
  | [], cs => some cs
  | _ :: _, [] => none
  | p :: ps, c :: cs => if p == c then litMatch ps cs else none

/-- Case-insensitive match at the head that returns the consumed characters with
their original casing (Python `group` of a case-insensitive literal alternation). -/
def takeCI : List Char → List Char → Option (List Char)
  | [], _ => some []
  | _ :: _, [] => none
  | p :: ps, c :: cs => if chEq p c then (takeCI ps cs).map (c :: ·) else none

/-- Right-hand `\b` after a match that ends in a word character: end of string or
a non-word character follows. -/
def wordTail : List Char → Bool
  | [] => true
  | c :: _ => !isWordChar c

/-- Plain (case-sensitive) substring test, Python `pat in s`. -/
def listSubstr (pat : List Char) : List Char → Bool
  | [] => (litMatch pat []).isSome
  | c :: cs => (litMatch pat (c :: cs)).isSome || listSubstr pat cs

/-- Scanner for `re.search(rf"\b{pat}\b", text, re.IGNORECASE)` where `pat` is a
literal beginning and ending in word characters.  `prevW` records whether the
previous character was a word character (left boundary context). -/
def cwciAux (pat : List Char) : Bool → List Char → Bool
  | _, [] => false
  | prevW, c :: cs =>
    (!prevW && (match matchCI pat (c :: cs) with
                | some rest => wordTail rest
                | none => false))
    || cwciAux pat (isWordChar c) cs

/-- Whole-word case-insensitive containment of the literal `pat` in `t`. -/
def cwci (t : List Char) (pat : String) : Bool := cwciAux pat.toList false t

/-- Drop all leading Python whitespace (`\s*` before a non-whitespace literal). -/
def skipWS : List Char → List Char
  | [] => []
  | c :: cs => if isPySpace c then skipWS cs else c :: cs

/-- `\s?` before a continuation that cannot itself start with whitespace:
consume one whitespace character when present. -/
def skipOneWS : List Char → List Char
  | [] => []
  | c :: cs => if isPySpace c then cs else c :: cs

/-- Numeric value of a run of decimal digit characters. -/
def digitsVal (ds : List Char) : Nat := ds.foldl (fun a c => a * 10 + (c.toNat - 48)) 0

/- ## Filament code / SKU patterns (`utils/ocr.py`, step 1) -/

/-- Head match for `Filament\s*Code` (case-insensitive); returns the remainder. -/
def fcHead (cs : List Char) : Option (List Char) :=
  match matchCI "filament".toList cs with
  | some rest => matchCI "code".toList (skipWS rest)
  | none => none

/-- First position where five consecutive digits start (the lazy `.*?(\d{5})`
continuation with `re.DOTALL`); returns those five digits. -/
def fiveDigitsAt : List Char → Option String
  | [] => none
  | c1 :: cs =>
    match cs with
    | c2 :: c3 :: c4 :: c5 :: _ =>
      if c1.isDigit && c2.isDigit && c3.isDigit && c4.isDigit && c5.isDigit then
        some (String.mk [c1, c2, c3, c4, c5])
      else fiveDigitsAt cs
    | _ => none

/-- `re.search(r"Filament\s*Code.*?(\d{5})", text, re.IGNORECASE | re.DOTALL)`:
the five digits captured at the leftmost full match, if any. -/
def fcSearch : List Char → Option String
  | [] => none
  | c :: cs =>
    match fcHead (c :: cs) with
    | some rest => fiveDigitsAt rest
    | none => fcSearch cs

/-- Separator class `[\s.:)]` of the generic SKU pattern. -/
def isSkuSep (c : Char) : Bool := isPySpace c || c == '.' || c == ':' || c == ')'

/-- Code class `[A-Z0-9-]` under `re.IGNORECASE`. -/
def isSkuCode (c : Char) : Bool := c.isUpper || c.isLower || c.isDigit || c == '-'

/-- After the `SKU|Ref|P/N` keyword: `[\s.:)]+` then the captured `[A-Z0-9-]{4,15}`. -/
def skuAfterKey (cs : List Char) : Option String :=
  match cs with
  | [] => none
  | c :: rest =>
    if isSkuSep c then
      let rest2 := rest.dropWhile isSkuSep
      let run := rest2.takeWhile isSkuCode
      if run.length ≥ 4 then some (String.mk (run.take 15)) else none
    else none

/-- The keyword alternation `(?:SKU|Ref|P/N)` (case-insensitive). -/
def skuKeyHead (cs : List Char) : Option (List Char) :=
  match matchCI "sku".toList cs with
  | some r => some r
  | none =>
    match matchCI "ref".toList cs with
    | some r => some r
    | none => matchCI "p/n".toList cs

/-- `re.search(r"(?:SKU|Ref|P/N)[\s.:)]+([A-Z0-9-]{4,15})", text, re.IGNORECASE)`. -/
def skuSearch : List Char → Option String
  | [] => none
  | c :: cs =>
    match skuKeyHead (c :: cs) with
    | some rest =>
      match skuAfterKey rest with
      | some code => some code
      | none => skuSearch cs
    | none => skuSearch cs

/- ## Material pattern (`utils/ocr.py` step 3 and `utils/lookup.py` step 2) -/

/-- The optional suffix of the `PLA(?:\+| plus)?` alternative, followed by the
closing `\b`, with the backtracking order of the Python engine (`\+`, then
` plus`, then empty).  Returns `group(0).upper()` of the whole alternative. -/
def plaOpt (r : List Char) : Option String :=
  (match r with
   | '+' :: r2 =>
     (match r2 with
      | c :: _ => if isWordChar c then some "PLA+" else none
      | [] => none)
   | _ => none)
  <|>
  (match r with
   | ' ' :: r2 =>
     match matchCI "plus".toList r2 with
     | some r3 => if wordTail r3 then some "PLA PLUS" else none
     | none => none
   | _ => none)
  <|> (if wordTail r then some "PLA" else none)

/-- The `ABS(?:-GF)?` alternative with its closing `\b`. -/
def absOpt (r : List Char) : Option String :=
  (match matchCI "-gf".toList r with
   | some r2 => if wordTail r2 then some "ABS-GF" else none
   | none => none)
  <|> (if wordTail r then some "ABS" else none)

/-- A single-word alternative of the material alternation, uppercased as the source does. -/
def simpleWord (pat canon : String) (cs : List Char) : Option String :=
  match matchCI pat.toList cs with
  | some r => if wordTail r then some canon else none
  | none => none

/-- All alternatives of
`\b(PLA(?:\+| plus)?|PETG|ABS(?:-GF)?|TPU|ASA|Nylon|PC|PVA|CF)\b`
at one position (left boundary already checked), in source order. -/
def matAt (cs : List Char) : Option String :=
  (match matchCI "pla".toList cs with
   | some r => plaOpt r
   | none => none)
  <|> simpleWord "petg" "PETG" cs
  <|> (match matchCI "abs".toList cs with
       | some r => absOpt r
       | none => none)
  <|> simpleWord "tpu" "TPU" cs
  <|> simpleWord "asa" "ASA" cs
  <|> simpleWord "nylon" "NYLON" cs
  <|> simpleWord "pc" "PC" cs
  <|> simpleWord "pva" "PVA" cs
  <|> simpleWord "cf" "CF" cs

/-- Leftmost match of the material alternation, tracking the left `\b` context. -/
def materialSearchAux : Bool → List Char → Option String
  | _, [] => none
  | prevW, c :: cs =>
    match (if prevW then none else matAt (c :: cs)) with
    | some m => some m
    | none => materialSearchAux (isWordChar c) cs

/-- `re.search(r"\b(PLA(?:\+| plus)?|PETG|ABS(?:-GF)?|TPU|ASA|Nylon|PC|PVA|CF)\b", text,
re.IGNORECASE)`, already uppercased as by `group(0).upper()`. -/
def materialSearch (t : List Char) : Option String := materialSearchAux false t

/-- Alternatives of the subtype pattern, in source order (no word boundaries). -/
def subtypeAlts : List String :=
  ["Basic", "Matte", "Silk", "Translucent", "Galaxy", "Sparkle", "Wood", "Carbon Fiber"]

/-- One position of `(Basic|Matte|Silk|Translucent|Galaxy|Sparkle|Wood|Carbon Fiber)`
under `re.IGNORECASE`; `group(1)` keeps the casing found in the text. -/
def subtypeAt (cs : List Char) : Option (List Char) :=
  subtypeAlts.foldr
    (fun alt acc =>
      match takeCI alt.toList cs with
      | some m => some m
      | none => acc)
    none

/-- Leftmost match of the subtype pattern. -/
def subtypeSearch : List Char → Option (List Char)
  | [] => none
  | c :: cs =>
    match subtypeAt (c :: cs) with
    | some m => some m
    | none => subtypeSearch cs

/- ## Weight pattern `(\d{1,4})\s?(g|kg)` (IGNORECASE) and its `(\d+)\s?(kg|g)` variant -/

/-- Weight units of the pattern. -/
inductive WUnit
  | g
  | kg
deriving DecidableEq

/-- The `(g|kg)` (equivalently `(kg|g)`: first characters are distinct) unit
alternation at the head, case-insensitively. -/
def unitAt : List Char → Option WUnit
  | [] => none
  | c :: cs =>
    if chEq c 'g' then some WUnit.g
    else if chEq c 'k' then
      match cs with
      | c2 :: _ => if chEq c2 'g' then some WUnit.kg else none
      | [] => none
    else none

/-- Greedy digit-group backtracking: try group lengths `n, n-1, …, 1` followed by
`\s?` and the unit alternation. -/
def weightBack (cs : List Char) : Nat → Option (Nat × WUnit)
  | 0 => none
  | n + 1 =>
    if (cs.take (n + 1)).all Char.isDigit then
      match unitAt (skipOneWS (cs.drop (n + 1))) with
      | some u => some (digitsVal (cs.take (n + 1)), u)
      | none => weightBack cs n
    else weightBack cs n

/-- `re.search(r"(\d{1,4})\s?(g|kg)", text, re.IGNORECASE)`: leftmost match,
digit group capped at four characters. -/
def weightSearchAux : List Char → Option (Nat × WUnit)
  | [] => none
  | c :: cs =>
    if c.isDigit then
      match weightBack (c :: cs) (min ((c :: cs).takeWhile Char.isDigit).length 4) with
      | some r => some r
      | none => weightSearchAux cs
    else weightSearchAux cs

/-- `re.search(r"(\d+)\s?(kg|g)", combined_text)` of `utils/barcode_lookup.py`
(uncapped digit group; the text it runs on is already lowercased). -/
def prodWeightAux : List Char → Option (Nat × WUnit)
  | [] => none
  | c :: cs =>
    if c.isDigit then
      match weightBack (c :: cs) ((c :: cs).takeWhile Char.isDigit).length with
      | some r => some r
      | none => prodWeightAux cs
    else prodWeightAux cs

/-- OCR-matcher weight rule (`utils/ocr.py` lines 153-157):
`if unit == 'kg' or (unit == 'g' and val < 10): val *= 1000`. -/
def ocrWeightNormalize (val : Nat) (u : WUnit) : Nat :=
  if u = WUnit.kg ∨ (u = WUnit.g ∧ val < 10) then val * 1000 else val

/-- Web-lookup-matcher weight rule (`utils/lookup.py` lines 115-119):
`if unit == 'kg': val *= 1000`. -/
def lookupWeightNormalize (val : Nat) (u : WUnit) : Nat :=
  if u = WUnit.kg then val * 1000 else val

/- ## Temperature pattern `(\d{2,3})\s?-\s?(\d{2,3})\s?Â°?C` (no flags) -/

/-- The trailing `Â°?C` literal (the source pattern contains the mojibake byte
sequence literally), with the `°?` backtracking resolved. -/
def tempMarker : List Char → Bool
  | 'Â' :: '°' :: 'C' :: _ => true
  | 'Â' :: 'C' :: _ => true
  | _ => false

/-- Second digit group: lengths `3, 2` (greedy) followed by `\s?` and the marker.
`cs2` starts at the group; the argument is the candidate length bound. -/
def tempSecondTry (cs2 : List Char) : Nat → Option (List Char)
  | 0 => none
  | 1 => none
  | n + 2 =>
    if (cs2.take (n + 2)).all Char.isDigit ∧ tempMarker (skipOneWS (cs2.drop (n + 2))) then
      some (cs2.take (n + 2))
    else tempSecondTry cs2 (n + 1)

/-- `\s?` then the second `(\d{2,3})` then `\s?Â°?C`. -/
def tempSecond (cs : List Char) : Option (List Char) :=
  let cs2 := skipOneWS cs
  tempSecondTry cs2 (min (cs2.takeWhile Char.isDigit).length 3)

/-- First digit group with backtracking over its length, then `\s?-`, then the rest. -/
def tempFirstTry (cs : List Char) : Nat → Option (List Char × List Char)
  | 0 => none
  | 1 => none
  | n + 2 =>
    if (cs.take (n + 2)).all Char.isDigit then
      match skipOneWS (cs.drop (n + 2)) with
      | '-' :: r2 =>
        (match tempSecond r2 with
         | some g2 => some (cs.take (n + 2), g2)
         | none => tempFirstTry cs (n + 1))
      | _ => tempFirstTry cs (n + 1)
    else tempFirstTry cs (n + 1)

/-- One position of the temperature pattern. -/
def tempAt (cs : List Char) : Option (String × String) :=
  match tempFirstTry cs (min (cs.takeWhile Char.isDigit).length 3) with
  | some (g1, g2) => some (String.mk g1, String.mk g2)
  | none => none

/-- `re.search(r"(\d{2,3})\s?-\s?(\d{2,3})\s?Â°?C", text)`: leftmost match,
returning the two captured digit groups. -/
def tempSearch : List Char → Option (String × String)
  | [] => none
  | c :: cs =>
    match tempAt (c :: cs) with
    | some r => some r
    | none => tempSearch cs

/- ## Diameter pattern `(1\.75|2\.85|3\.00)\s?mm` (no flags) -/

/-- `\s?` then the literal `mm`. -/
def mmAfter (r : List Char) : Bool :=
  match skipOneWS r with
  | 'm' :: 'm' :: _ => true
  | _ => false

/-- One literal alternative of the diameter pattern; `q` is `float(group(1))`. -/
def diaLit (lit : String) (q : ℚ) (cs : List Char) : Option ℚ :=
  match litMatch lit.toList cs with
  | some r => if mmAfter r then some q else none
  | none => none

/-- The three alternatives at one position, in source order. -/
def diaAt (cs : List Char) : Option ℚ :=
  match diaLit "1.75" 1.75 cs with
  | some q => some q
  | none =>
    match diaLit "2.85" 2.85 cs with
    | some q => some q
    | none => diaLit "3.00" 3 cs

/-- `re.search(r"(1\.75|2\.85|3\.00)\s?mm", text)` converted by `float(...)`. -/
def diaSearch : List Char → Option ℚ
  | [] => none
  | c :: cs =>
    match diaAt (c :: cs) with
    | some q => some q
    | none => diaSearch cs

/- ## Data model -/

/-- The dict returned by `extract_barcode` (`utils/ocr.py`): `data`, `type`, `raw`. -/
structure BarcodeData where
  data : String
  type : String
  raw : String

/-- The FilamentRecord dict built by `parse_filament_data` and threaded through the
pipeline.  `color_hex` and `product_title` are keys that the source adds only when
matched/enriched; `Option.none` models an absent or `None` entry.  `diameter` is a
float in the source, always one of the exact decimals 1.75 / 2.85 / 3.00, modelled
as `ℚ`. -/
structure FilamentRecord where
  brand : Option String
  material : Option String
  weight_g : Option Nat
  diameter : ℚ
  temp_nozzle : Option String
  color_name : Option String
  color_hex : Option String
  filament_code : Option String
  raw_text : String
  barcode : Option String
  barcode_type : Option String
  product_title : Option String

/-- The partial dict returned by `parse_string_info` (`utils/lookup.py`). -/
structure WebInfo where
  brand : Option String
  material : Option String
  color_name : Option String
  color_hex : Option String
  weight_g : Option Nat

/-- One item of the UPC catalog API response consumed by `lookup_barcode_product`. -/
structure ApiItem where
  brand : Option String
  title : Option String
  description : Option String
  category : Option String
  images : List String

/-- The `product_data` dict built by `lookup_barcode_product`. -/
structure ProductInfo where
  brand : Option String
  title : Option String
  description : Option String
  category : Option String
  images : List String
  barcode : String
  barcode_type : String
  material : Option String
  weight_g : Option Nat
  diameter : Option ℚ

/-- The JSON object returned by the `/api/scan` endpoint (`main.py`). -/
structure ScanResponse where
  status : String
  file_path : Option String
  ocr_data : Option FilamentRecord
  debug_text : Option String
  message : Option String

/-- Python truthiness of an optional string: `None` and `""` are falsy. -/
def pyTruthyS : Option String → Bool
  | none => false
  | some s => !s.isEmpty

/-- Python truthiness of an optional integer: `None` and `0` are falsy. -/
def pyTruthyN : Option Nat → Bool
  | none => false
  | some n => n != 0

/-- Python truthiness of an optional float: `None` and `0.0` are falsy. -/
def pyTruthyQ : Option ℚ → Bool
  | none => false
  | some q => q != 0

/-- Python `str.strip()` yields the empty string, i.e. every character is whitespace. -/
def pyStripEmpty (s : String) : Bool := s.data.all isPySpace

/-- Python `str.lower()` on the ASCII inputs of this pipeline, character-wise
(defined over the character list so that it evaluates by kernel reduction). -/
def strLower (s : String) : String := String.mk (s.data.map Char.toLower)

/- ## `utils/ocr.py` -/

/-- The sentinel returned by `extract_text` when the OCR engine is unavailable. -/
def tesseractSentinel : String :=
  "ERROR: Tesseract OCR is not installed or not in PATH. Please install it from https://github.com/UB-Mannheim/tesseract/wiki"

/-- The sentinel returned by `extract_text` when all preprocessing variants yield
only whitespace. -/
def noTextSentinel : String := "No text detected. Try better lighting or get closer."

/-- `extract_text` (`utils/ocr.py`).  `tesseract_available` is the outcome of the
guarded `pytesseract.get_tesseract_version()` probe; `runs` is the outcome of the
three guarded `image_to_string` calls on the three preprocessing variants
(an exception in any of them is caught and reported as `"OCR Error: …"`). -/
def extract_text (tesseract_available : Bool)
    (runs : Except String (String × String × String)) : String :=
  if !tesseract_available then tesseractSentinel
  else
    match runs with
    | Except.error e => "OCR Error: " ++ e
    | Except.ok (s1, s2, s3) =>
      let full_text := s1 ++ "\n" ++ s2 ++ "\n" ++ s3
      if pyStripEmpty full_text then noTextSentinel else full_text

/-- The retail-numeric symbologies recognised by the pipeline. -/
def retailTypes : List String := ["EAN13", "UPCA", "EAN8", "UPCE"]

/-- Brand list of `parse_filament_data` (`utils/ocr.py` line 135), in source order. -/
def ocrBrands : List String :=
  ["Bambu", "Overture", "eSun", "Sunlu", "Polymaker", "Hatchbox", "Prusament",
   "Creality", "Eryone", "Amolen", "Inland"]

/-- The color dictionary shared by `utils/ocr.py` and `utils/lookup.py`, already
arranged in the iteration order `sorted(colors.keys(), key=len, reverse=True)`
(Python's sort is stable, so names of equal length keep insertion order). -/
def colorsSorted : List (String × String) :=
  [("Transparent", "#EFEFEF"),
   ("Aquamarine", "#7FFFD4"), ("Pine Green", "#01796F"),
   ("Turquoise", "#40E0D0"),
   ("Lavender", "#E6E6FA"), ("Charcoal", "#36454F"),
   ("Magenta", "#FF00FF"), ("Crimson", "#DC143C"), ("Sparkle", "#444444"),
   ("Natural", "#F5F5DC"),
   ("Yellow", "#FFFF00"), ("Orange", "#FFA500"), ("Purple", "#800080"),
   ("Silver", "#C0C0C0"), ("Copper", "#B87333"), ("Bronze", "#CD7F32"),
   ("Maroon", "#800000"), ("Violet", "#EE82EE"), ("Indigo", "#4B0082"),
   ("Salmon", "#FA8072"), ("Galaxy", "#222222"),
   ("Black", "#000000"), ("White", "#FFFFFF"), ("Green", "#008000"),
   ("Brown", "#A52A2A"), ("Olive", "#808000"), ("Beige", "#F5F5DC"),
   ("Ivory", "#FFFFF0"), ("Khaki", "#F0E68C"), ("Coral", "#FF7F50"),
   ("Peach", "#FFDAB9"), ("Slate", "#708090"), ("Clear", "#EFEFEF"),
   ("Gray", "#808080"), ("Grey", "#808080"), ("Blue", "#0000FF"),
   ("Pink", "#FFC0CB"), ("Gold", "#FFD700"), ("Teal", "#008080"),
   ("Cyan", "#00FFFF"), ("Lime", "#00FF00"), ("Navy", "#000080"),
   ("Plum", "#DDA0DD"), ("Mint", "#98FF98"), ("Glow", "#CCFFCC"),
   ("Red", "#FF0000"), ("Tan", "#D2B48C")]

/-- First color of the iteration whose name occurs as a whole word (case-insensitive). -/
def colorFind (t : List Char) : Option (String × String) :=
  colorsSorted.find? (fun nh => cwci t nh.1)

/-- The initial dict of `parse_filament_data` (`utils/ocr.py` lines 91-102). -/
def pfdInit (text : String) : FilamentRecord :=
  { brand := none, material := none, weight_g := none, diameter := 1.75,
    temp_nozzle := none, color_name := none, color_hex := none,
    filament_code := none, raw_text := text, barcode := none,
    barcode_type := none, product_title := none }

/-- Step 0 of `parse_filament_data`: Barcode Data Override (lines 104-115). -/
def pfdBarcode (barcode_data : Option BarcodeData) (data : FilamentRecord) :
    FilamentRecord :=
  match barcode_data with
  | some bd =>
    let d1 := { data with barcode := some bd.data, barcode_type := some bd.type }
    let d2 :=
      if retailTypes.contains bd.type then { d1 with filament_code := some bd.data }
      else d1
    if bd.type == "QRCODE" && listSubstr "bambulab".toList (strLower bd.data).data then
      { d2 with brand := some "Bambu Lab" }
    else d2
  | none => data

/-- Step 1 of `parse_filament_data`: Filament Code / SKU (lines 117-132). -/
def pfdCode (t : List Char) (data : FilamentRecord) : FilamentRecord :=
  match fcSearch t with
  | some c => { data with filament_code := some c }
  | none =>
    match skuSearch t with
    | some c => { data with filament_code := some c }
    | none => data

/-- Step 2 of `parse_filament_data`: Brand (lines 134-139). -/
def pfdBrand (t : List Char) (data : FilamentRecord) : FilamentRecord :=
  match ocrBrands.find? (fun b => cwci t b) with
  | some b => { data with brand := some b }
  | none => data

/-- Step 3 of `parse_filament_data`: Material with optional subtype (lines 141-148). -/
def pfdMaterial (t : List Char) (data : FilamentRecord) : FilamentRecord :=
  match materialSearch t with
  | some m =>
    { data with material := some (match subtypeSearch t with
        | some st => m ++ " " ++ String.mk st
        | none => m) }
  | none => data

/-- Step 4 of `parse_filament_data`: Weight (lines 150-157). -/
def pfdWeight (t : List Char) (data : FilamentRecord) : FilamentRecord :=
  match weightSearchAux t with
  | some vu => { data with weight_g := some (ocrWeightNormalize vu.1 vu.2) }
  | none => data

/-- Step 5 of `parse_filament_data`: Temperature (lines 159-162). -/
def pfdTemp (t : List Char) (data : FilamentRecord) : FilamentRecord :=
  match tempSearch t with
  | some gg => { data with temp_nozzle := some (gg.1 ++ "-" ++ gg.2) }
  | none => data

/-- Step 6 of `parse_filament_data`: Diameter (lines 164-167). -/
def pfdDia (t : List Char) (data : FilamentRecord) : FilamentRecord :=
  match diaSearch t with
  | some q => { data with diameter := q }
  | none => data

/-- Step 7 of `parse_filament_data`: Color Logic (lines 169-190). -/
def pfdColor (t : List Char) (data : FilamentRecord) : FilamentRecord :=
  match colorFind t with
  | some nh => { data with color_name := some nh.1, color_hex := some nh.2 }
  | none => data

/-- `parse_filament_data` (`utils/ocr.py` lines 85-192): the named stage functions
above are applied in the order of the successive mutations of the Python dict. -/
def parse_filament_data (text : String) (barcode_data : Option BarcodeData) :
    FilamentRecord :=
  let t := text.toList
  pfdColor t (pfdDia t (pfdTemp t (pfdWeight t (pfdMaterial t
    (pfdBrand t (pfdCode t (pfdBarcode barcode_data (pfdInit text))))))))

/- ## `utils/lookup.py` -/

/-- Brand list of `parse_string_info` (`utils/lookup.py` lines 71-72), in source order. -/
def webBrands : List String :=
  ["Bambu Lab", "Bambu", "Overture", "eSun", "Sunlu", "Polymaker", "Hatchbox",
   "Prusament", "Creality", "Eryone", "Amolen", "Inland", "Flashforge", "Elegoo",
   "Voxelab"]

/-- `parse_string_info` (`utils/lookup.py` lines 64-121).  Each key of the returned
dict is written at most once, so the record literal matches the source. -/
def parse_string_info (text : String) : WebInfo :=
  let t := text.toList
  { brand :=
      match webBrands.find? (fun b => cwci t b) with
      | some b => if strLower b = "bambu" then some "Bambu Lab" else some b
      | none => none,
    material :=
      match materialSearch t with
      | some m =>
        some (match subtypeSearch t with
          | some st => m ++ " " ++ String.mk st
          | none => m)
      | none => none,
    color_name := (colorFind t).map (fun nh => nh.1),
    color_hex := (colorFind t).map (fun nh => nh.2),
    weight_g := (weightSearchAux t).map (fun vu => lookupWeightNormalize vu.1 vu.2) }

/-- The empty `best_match` dict. -/
def emptyWebInfo : WebInfo :=
  { brand := none, material := none, color_name := none, color_hex := none,
    weight_g := none }

/-- The per-key accumulation `if not best_match.get(k) and v: best_match[k] = v`. -/
def webAccumulate (best parsed : WebInfo) : WebInfo :=
  { brand :=
      if pyTruthyS best.brand = false ∧ pyTruthyS parsed.brand = true then parsed.brand
      else best.brand,
    material :=
      if pyTruthyS best.material = false ∧ pyTruthyS parsed.material = true then
        parsed.material
      else best.material,
    color_name :=
      if pyTruthyS best.color_name = false ∧ pyTruthyS parsed.color_name = true then
        parsed.color_name
      else best.color_name,
    color_hex :=
      if pyTruthyS best.color_hex = false ∧ pyTruthyS parsed.color_hex = true then
        parsed.color_hex
      else best.color_hex,
    weight_g :=
      if pyTruthyN best.weight_g = false ∧ pyTruthyN parsed.weight_g = true then
        parsed.weight_g
      else best.weight_g }

/-- The result loop of `lookup_filament_code`: accumulate each title's parse, and
stop early once brand, material and color_name are all truthy. -/
def webLoop : List String → WebInfo → WebInfo
  | [], best => best
  | title :: rest, best =>
    let best2 := webAccumulate best (parse_string_info title)
    if pyTruthyS best2.brand = true ∧ pyTruthyS best2.material = true ∧
        pyTruthyS best2.color_name = true then best2
    else webLoop rest best2

/-- `lookup_filament_code` (`utils/lookup.py` lines 7-62).  `search` is the oracle
for the scraped result titles of the DuckDuckGo query: `none` models the caught
request exception, `some []` a non-200 status or an empty result page (both return
the empty dict); titles are truncated to the top five as by `links[:5]`. -/
def lookup_filament_code (code : String) (search : String → Option (List String)) :
    WebInfo :=
  match search (code ++ " filament code 3D printing") with
  | none => emptyWebInfo
  | some titles =>
    let results := titles.take 5
    if results.isEmpty then emptyWebInfo
    else webLoop results emptyWebInfo

/- ## `utils/barcode_lookup.py` -/

/-- `lookup_barcode_product` (`utils/barcode_lookup.py` lines 4-76).  `api` is the
oracle for the UPC Item DB response: `none` models a caught network failure, a
non-200 status, or a missing/empty `items` list (all of which yield `None`);
`some items` is the decoded `items` array. -/
def lookup_barcode_product (barcode btype : String) (api : Option (List ApiItem)) :
    Option ProductInfo :=
  match api with
  | none => none
  | some [] => none
  | some (item :: _) =>
    let title_lower := strLower (item.title.getD "")
    let desc_lower := strLower (item.description.getD "")
    let combined_text := title_lower ++ " " ++ desc_lower
    let c := combined_text.toList
    let material :=
      if listSubstr "pla".toList c then some "PLA"
      else if listSubstr "petg".toList c then some "PETG"
      else if listSubstr "abs".toList c then some "ABS"
      else if listSubstr "tpu".toList c then some "TPU"
      else none
    let weight_g :=
      (prodWeightAux c).map (fun vu =>
        match vu.2 with
        | WUnit.kg => vu.1 * 1000
        | WUnit.g => vu.1)
    let diameter :=
      if listSubstr "1.75".toList c || listSubstr "1.75mm".toList c then
        some (1.75 : ℚ)
      else if listSubstr "2.85".toList c || listSubstr "2.85mm".toList c then
        some (2.85 : ℚ)
      else none
    some { brand := item.brand, title := item.title, description := item.description,
           category := item.category, images := item.images, barcode := barcode,
           barcode_type := btype, material := material, weight_g := weight_g,
           diameter := diameter }

/-- The merge step of `enhance_with_barcode_data` (`utils/barcode_lookup.py`
lines 100-115): each FilamentRecord field is filled only when currently falsy,
while `product_title` is stored unconditionally whenever the product has a title. -/
def mergeProduct (parsed : FilamentRecord) (p : ProductInfo) : FilamentRecord :=
  { parsed with
    brand :=
      if pyTruthyS parsed.brand = false ∧ pyTruthyS p.brand = true then p.brand
      else parsed.brand,
    material :=
      if pyTruthyS parsed.material = false ∧ pyTruthyS p.material = true then p.material
      else parsed.material,
    weight_g :=
      if pyTruthyN parsed.weight_g = false ∧ pyTruthyN p.weight_g = true then p.weight_g
      else parsed.weight_g,
    diameter :=
      if parsed.diameter = 0 ∧ pyTruthyQ p.diameter = true then
        p.diameter.getD parsed.diameter
      else parsed.diameter,
    product_title := if pyTruthyS p.title = true then p.title else parsed.product_title }

/-- `enhance_with_barcode_data` (`utils/barcode_lookup.py` lines 79-117). -/
def enhance_with_barcode_data (parsed : FilamentRecord)
    (barcode_data : Option BarcodeData) (api : String → Option (List ApiItem)) :
    FilamentRecord :=
  match barcode_data with
  | none => parsed
  | some b =>
    if b.data.isEmpty then parsed
    else if !(retailTypes.contains b.type) then parsed
    else
      match lookup_barcode_product b.data b.type (api b.data) with
      | none => parsed
      | some p => mergeProduct parsed p

/- ## `/api/scan` orchestrator (`main.py` lines 293-355) -/

/-- The web-fallback guard of `process_scan` (`main.py` lines 330-334). -/
def webGate (rec : FilamentRecord) : Bool :=
  pyTruthyS rec.filament_code &&
    (!pyTruthyS rec.brand || !pyTruthyS rec.material || !pyTruthyS rec.color_name)

/-- The merge of web lookup results into the record (`main.py` lines 340-342). -/
def mergeWeb (parsed : FilamentRecord) (web : WebInfo) : FilamentRecord :=
  { parsed with
    brand :=
      if pyTruthyS parsed.brand = false ∧ pyTruthyS web.brand = true then web.brand
      else parsed.brand,
    material :=
      if pyTruthyS parsed.material = false ∧ pyTruthyS web.material = true then
        web.material
      else parsed.material,
    color_name :=
      if pyTruthyS parsed.color_name = false ∧ pyTruthyS web.color_name = true then
        web.color_name
      else parsed.color_name,
    color_hex :=
      if pyTruthyS parsed.color_hex = false ∧ pyTruthyS web.color_hex = true then
        web.color_hex
      else parsed.color_hex,
    weight_g :=
      if pyTruthyN parsed.weight_g = false ∧ pyTruthyN web.weight_g = true then
        web.weight_g
      else parsed.weight_g }

/-- `process_scan` (`main.py` lines 293-355) after the temporary upload has been
written.  `preprocess_ok` is the outcome of `preprocess_image` (false models the
caught `Image.open` exception returning `None`); `barcode_data` the outcome of
`extract_barcode`; `tesseract_available` and `ocr_runs` feed `extract_text`;
`api` and `search` are the network oracles of the two lookup stages. -/
def process_scan (file_location : String) (preprocess_ok : Bool)
    (barcode_data : Option BarcodeData) (tesseract_available : Bool)
    (ocr_runs : Except String (String × String × String))
    (api : String → Option (List ApiItem))
    (search : String → Option (List String)) : ScanResponse :=
  if preprocess_ok then
    let raw_text := extract_text tesseract_available ocr_runs
    let parsed_data := parse_filament_data raw_text barcode_data
    let parsed_data2 :=
      if barcode_data.isSome then enhance_with_barcode_data parsed_data barcode_data api
      else parsed_data
    let parsed_data3 :=
      if webGate parsed_data2 then
        mergeWeb parsed_data2
          (lookup_filament_code (parsed_data2.filament_code.getD "") search)
      else parsed_data2
    { status := "success", file_path := some file_location,
      ocr_data := some parsed_data3, debug_text := some raw_text, message := none }
  else
    { status := "error", file_path := none, ocr_data := none, debug_text := none,
      message := some "Failed to process image" }

/- ## Helper lemmas -/

/-- `String.append` concatenates the underlying character lists. -/
theorem strDataAppend (a b : String) : (a ++ b).data = a.data ++ b.data := by
  cases a
  cases b
  rfl

/-- Stripping the three-way join yields empty iff each component strips to empty
(the `"\n"` separators are themselves whitespace). -/
theorem pyStripEmpty_join (s1 s2 s3 : String) :
    pyStripEmpty (s1 ++ "\n" ++ s2 ++ "\n" ++ s3) =
      (pyStripEmpty s1 && pyStripEmpty s2 && pyStripEmpty s3) := by
  have hn : (("\n" : String).data.all isPySpace) = true := rfl
  simp only [pyStripEmpty, strDataAppend, List.all_append, hn, Bool.and_true,
    Bool.true_and]

/- Per-stage frame lemmas: which fields each stage of `parse_filament_data`
leaves untouched, and the value of the field it writes. -/

theorem pfdBarcode_dia (bc : Option BarcodeData) (d : FilamentRecord) :
    (pfdBarcode bc d).diameter = d.diameter := by
  unfold pfdBarcode
  repeat' split
  all_goals rfl

theorem pfdCode_brand (t : List Char) (d : FilamentRecord) :
    (pfdCode t d).brand = d.brand := by
  unfold pfdCode
  repeat' split
  all_goals rfl

theorem pfdCode_dia (t : List Char) (d : FilamentRecord) :
    (pfdCode t d).diameter = d.diameter := by
  unfold pfdCode
  repeat' split
  all_goals rfl

theorem pfdBrand_fc (t : List Char) (d : FilamentRecord) :
    (pfdBrand t d).filament_code = d.filament_code := by
  unfold pfdBrand
  repeat' split
  all_goals rfl

theorem pfdBrand_dia (t : List Char) (d : FilamentRecord) :
    (pfdBrand t d).diameter = d.diameter := by
  unfold pfdBrand
  repeat' split
  all_goals rfl

theorem pfdMaterial_fc (t : List Char) (d : FilamentRecord) :
    (pfdMaterial t d).filament_code = d.filament_code := by
  unfold pfdMaterial
  repeat' split
  all_goals rfl

theorem pfdMaterial_brand (t : List Char) (d : FilamentRecord) :
    (pfdMaterial t d).brand = d.brand := by
  unfold pfdMaterial
  repeat' split
  all_goals rfl

theorem pfdMaterial_dia (t : List Char) (d : FilamentRecord) :
    (pfdMaterial t d).diameter = d.diameter := by
  unfold pfdMaterial
  repeat' split
  all_goals rfl

theorem pfdWeight_fc (t : List Char) (d : FilamentRecord) :
    (pfdWeight t d).filament_code = d.filament_code := by
  unfold pfdWeight
  repeat' split
  all_goals rfl

theorem pfdWeight_brand (t : List Char) (d : FilamentRecord) :
    (pfdWeight t d).brand = d.brand := by
  unfold pfdWeight
  repeat' split
  all_goals rfl

theorem pfdWeight_dia (t : List Char) (d : FilamentRecord) :
    (pfdWeight t d).diameter = d.diameter := by
  unfold pfdWeight
  repeat' split
  all_goals rfl

theorem pfdTemp_fc (t : List Char) (d : FilamentRecord) :
    (pfdTemp t d).filament_code = d.filament_code := by
  unfold pfdTemp
  repeat' split
  all_goals rfl

theorem pfdTemp_brand (t : List Char) (d : FilamentRecord) :
    (pfdTemp t d).brand = d.brand := by
  unfold pfdTemp
  repeat' split
  all_goals rfl

theorem pfdTemp_dia (t : List Char) (d : FilamentRecord) :
    (pfdTemp t d).diameter = d.diameter := by
  unfold pfdTemp
  repeat' split
  all_goals rfl

theorem pfdDia_fc (t : List Char) (d : FilamentRecord) :
    (pfdDia t d).filament_code = d.filament_code := by
  unfold pfdDia
  repeat' split
  all_goals rfl

theorem pfdDia_brand (t : List Char) (d : FilamentRecord) :
    (pfdDia t d).brand = d.brand := by
  unfold pfdDia
  repeat' split
  all_goals rfl

theorem pfdColor_fc (t : List Char) (d : FilamentRecord) :
    (pfdColor t d).filament_code = d.filament_code := by
  unfold pfdColor
  repeat' split
  all_goals rfl

theorem pfdColor_brand (t : List Char) (d : FilamentRecord) :
    (pfdColor t d).brand = d.brand := by
  unfold pfdColor
  repeat' split
  all_goals rfl

theorem pfdColor_dia (t : List Char) (d : FilamentRecord) :
    (pfdColor t d).diameter = d.diameter := by
  unfold pfdColor
  repeat' split
  all_goals rfl

/-- The `filament_code` field produced by `parse_filament_data`: the OCR patterns
run unconditionally and take priority over the barcode-derived value. -/
theorem parse_fc_eq (text : String) (bc : Option BarcodeData) :
    (parse_filament_data text bc).filament_code =
      (match fcSearch text.toList with
       | some c => some c
       | none =>
         match skuSearch text.toList with
         | some c => some c
         | none =>
           match bc with
           | some bd => if retailTypes.contains bd.type then some bd.data else none
           | none => none) := by
  simp only [parse_filament_data, pfdColor_fc, pfdDia_fc, pfdTemp_fc, pfdWeight_fc,
    pfdMaterial_fc, pfdBrand_fc, pfdCode]
  cases h1 : fcSearch text.toList with
  | some c => rfl
  | none =>
    cases h2 : skuSearch text.toList with
    | some c => rfl
    | none =>
      simp only [pfdBarcode]
      cases bc with
      | none => rfl
      | some bd =>
        repeat' split
        all_goals rfl

/-- The `brand` field produced by `parse_filament_data`: the brand-list loop runs
unconditionally and takes priority over the QR-derived value. -/
theorem parse_brand_eq (text : String) (bc : Option BarcodeData) :
    (parse_filament_data text bc).brand =
      (match ocrBrands.find? (fun b => cwci text.toList b) with
       | some b => some b
       | none =>
         match bc with
         | some bd =>
           if bd.type == "QRCODE" &&
               listSubstr "bambulab".toList (strLower bd.data).data then
             some "Bambu Lab"
           else none
         | none => none) := by
  simp only [parse_filament_data, pfdColor_brand, pfdDia_brand, pfdTemp_brand,
    pfdWeight_brand, pfdMaterial_brand, pfdBrand]
  cases h1 : ocrBrands.find? (fun b => cwci text.toList b) with
  | some b => rfl
  | none =>
    rw [pfdCode_brand]
    simp only [pfdBarcode]
    cases bc with
    | none => rfl
    | some bd =>
      repeat' split
      all_goals rfl

/-- The `diameter` field produced by `parse_filament_data`. -/
theorem parse_diameter_eq (text : String) (bc : Option BarcodeData) :
    (parse_filament_data text bc).diameter =
      (match diaSearch text.toList with
       | some q => q
       | none => 1.75) := by
  simp only [parse_filament_data, pfdColor_dia, pfdDia]
  cases h1 : diaSearch text.toList with
  | some q => rfl
  | none =>
    rw [pfdTemp_dia, pfdWeight_dia, pfdMaterial_dia, pfdBrand_dia, pfdCode_dia,
      pfdBarcode_dia]
    rfl

/-- A diameter alternative only ever produces its own literal value. -/
theorem diaLit_val (lit : String) (q : ℚ) (cs : List Char) (q2 : ℚ)
    (h : diaLit lit q cs = some q2) : q2 = q := by
  unfold diaLit at h
  cases hm : litMatch lit.toList cs with
  | none =>
    simp only [hm] at h
    cases h
  | some r =>
    simp only [hm] at h
    by_cases hmm2 : mmAfter r = true
    · rw [if_pos hmm2] at h
      exact (Option.some.inj h).symm
    · rw [if_neg hmm2] at h
      cases h

/-- `diaAt` only ever produces one of the three diameter literals. -/
theorem diaAt_mem (cs : List Char) (q : ℚ) (h : diaAt cs = some q) :
    q = 1.75 ∨ q = 2.85 ∨ q = 3 := by
  unfold diaAt at h
  cases h1 : diaLit "1.75" 1.75 cs with
  | some q1 =>
    simp only [h1] at h
    exact Or.inl ((Option.some.inj h) ▸ diaLit_val _ _ _ _ h1)
  | none =>
    simp only [h1] at h
    cases h2 : diaLit "2.85" 2.85 cs with
    | some q2 =>
      simp only [h2] at h
      exact Or.inr (Or.inl ((Option.some.inj h) ▸ diaLit_val _ _ _ _ h2))
    | none =>
      simp only [h2] at h
      exact Or.inr (Or.inr (diaLit_val _ _ _ _ h))

/-- `diaSearch` only ever produces one of the three diameter literals. -/
theorem diaSearch_mem (cs : List Char) : ∀ (q : ℚ), diaSearch cs = some q →
    q = 1.75 ∨ q = 2.85 ∨ q = 3 := by
  induction cs with
  | nil => intro q h; simp [diaSearch] at h
  | cons c cs ih =>
    intro q h
    simp only [diaSearch] at h
    cases hh : diaAt (c :: cs) with
    | some q2 =>
      rw [hh] at h
      cases h
      exact diaAt_mem _ _ hh
    | none =>
      rw [hh] at h
      exact ih q h

/- ## Claim C4 -/

/-- Claim C4: the OCR-text matcher's weight rule and the web-lookup matcher's
weight rule agree on kilogram inputs and on gram values of at least 10 (a matched
`<n>kg` yields `n * 1000` grams, e.g. "1kg spool" gives `weight_g = 1000`; a
matched `<n>g` with `n ≥ 10` yields `n` grams, e.g. "250g" gives
`weight_g = 250`), but on a matched bare gram value below 10 the OCR matcher
multiplies by 1000 (treats it as kilograms) while the web-lookup matcher leaves
it as grams. -/
theorem weight_rule_agreement :
    (∀ v : Nat, ocrWeightNormalize v WUnit.kg = lookupWeightNormalize v WUnit.kg)
    ∧ (∀ v : Nat, 10 ≤ v → ocrWeightNormalize v WUnit.g = lookupWeightNormalize v WUnit.g)
    ∧ (∀ v : Nat, v < 10 →
        ocrWeightNormalize v WUnit.g = v * 1000 ∧ lookupWeightNormalize v WUnit.g = v)
    ∧ (parse_filament_data "1kg spool" none).weight_g = some 1000
    ∧ (parse_filament_data "250g" none).weight_g = some 250
    ∧ (parse_string_info "1kg spool").weight_g = some 1000
    ∧ (parse_string_info "250g").weight_g = some 250 := by
  refine ⟨?_, ?_, ?_, ?_, ?_, ?_, ?_⟩
  · intro v
    simp [ocrWeightNormalize, lookupWeightNormalize]
  · intro v hv
    simp [ocrWeightNormalize, lookupWeightNormalize, Nat.not_lt.mpr hv]
  · intro v hv
    refine ⟨?_, ?_⟩
    · simp [ocrWeightNormalize, hv]
    · simp [lookupWeightNormalize]
  · rfl
  · rfl
  · rfl
  · rfl

/-- Witness for C4: the agreeing and differing cases at concrete values. -/
theorem weight_rule_agreement_witness :
    ocrWeightNormalize 1 WUnit.kg = lookupWeightNormalize 1 WUnit.kg
    ∧ ocrWeightNormalize 250 WUnit.g = lookupWeightNormalize 250 WUnit.g
    ∧ (ocrWeightNormalize 5 WUnit.g = 5 * 1000 ∧ lookupWeightNormalize 5 WUnit.g = 5) :=
  ⟨weight_rule_agreement.1 1,
   weight_rule_agreement.2.1 250 (by decide),
   weight_rule_agreement.2.2.1 5 (by decide)⟩

/- ## Claim C9 -/

/-- Claim C9: the Text Pattern Matcher is pure and deterministic: for every text
input and every optional barcode payload, two runs of the matcher on the same
inputs produce equal output records (the embedding is a total function of its
arguments with no stateful or random inputs). -/
theorem matcher_deterministic (text : String) (bc : Option BarcodeData) :
    parse_filament_data text bc = parse_filament_data text bc := rfl

/- ## Claim C8 -/

/-- Claim C8: OCR degradation sentinels.  If the recognition engine is
unavailable, `extract_text` returns the sentinel error string (it does not
raise); if the engine is available and all three preprocessing variants yield
only whitespace or empty text, it returns the "no text detected" sentinel;
otherwise it returns the three variants' outputs joined by the separators. -/
theorem ocr_sentinels (runs : Except String (String × String × String))
    (s1 s2 s3 : String) :
    extract_text false runs = tesseractSentinel
    ∧ (pyStripEmpty s1 = true → pyStripEmpty s2 = true → pyStripEmpty s3 = true →
        extract_text true (Except.ok (s1, s2, s3)) = noTextSentinel)
    ∧ (¬(pyStripEmpty s1 = true ∧ pyStripEmpty s2 = true ∧ pyStripEmpty s3 = true) →
        extract_text true (Except.ok (s1, s2, s3)) = s1 ++ "\n" ++ s2 ++ "\n" ++ s3) := by
  refine ⟨rfl, ?_, ?_⟩
  · intro h1 h2 h3
    simp only [extract_text, Bool.not_true, Bool.false_eq_true, if_false]
    rw [if_pos]
    rw [pyStripEmpty_join, h1, h2, h3]
    rfl
  · intro h
    simp only [extract_text, Bool.not_true, Bool.false_eq_true, if_false]
    rw [if_neg]
    rw [pyStripEmpty_join]
    intro hc
    rcases Bool.and_eq_true_iff.mp hc with ⟨h12, h3⟩
    rcases Bool.and_eq_true_iff.mp h12 with ⟨h1, h2⟩
    exact h ⟨h1, h2, h3⟩

/-- Witness for C8: the three sentinel behaviours at concrete inputs. -/
theorem ocr_sentinels_witness :
    extract_text false (Except.error "z") = tesseractSentinel
    ∧ extract_text true (Except.ok (" ", "", "\t")) = noTextSentinel
    ∧ extract_text true (Except.ok ("a", "", "")) = "a" ++ "\n" ++ "" ++ "\n" ++ "" :=
  ⟨(ocr_sentinels (Except.error "z") " " "" "\t").1,
   (ocr_sentinels (Except.error "z") " " "" "\t").2.1 rfl rfl rfl,
   (ocr_sentinels (Except.error "z") "a" "" "").2.2 (by decide)⟩

/- ## Claim C6 -/

/-- Claim C6: retail-symbology gating of the barcode product lookup.  For every
record and every decoded barcode whose symbology is not one of EAN13, UPCA, EAN8,
UPCE, or whose payload is empty, `enhance_with_barcode_data` performs no product
lookup and returns the input record unchanged in every field (the result is the
input record for every possible catalog-API oracle). -/
theorem retail_gating_frame (rec : FilamentRecord) (b : BarcodeData)
    (api : String → Option (List ApiItem))
    (h : retailTypes.contains b.type = false ∨ b.data = "") :
    enhance_with_barcode_data rec (some b) api = rec := by
  have hred : enhance_with_barcode_data rec (some b) api =
      (if b.data.isEmpty then rec
       else if !(retailTypes.contains b.type) then rec
       else
         match lookup_barcode_product b.data b.type (api b.data) with
         | none => rec
         | some p => mergeProduct rec p) := rfl
  rw [hred]
  rcases h with h | h
  · by_cases hb : b.data.isEmpty = true
    · rw [if_pos hb]
    · have hnr : (!retailTypes.contains b.type) = true := by rw [h]; rfl
      rw [if_neg hb, if_pos hnr]
  · have hb : b.data.isEmpty = true := by rw [h]; rfl
    rw [if_pos hb]

/-- Witness for C6: a QR barcode never triggers the product lookup. -/
theorem retail_gating_frame_witness :
    enhance_with_barcode_data (pfdInit "scan")
      (some { data := "bambulab:xyz", type := "QRCODE", raw := "bambulab:xyz" })
      (fun _ => none) = pfdInit "scan" :=
  retail_gating_frame (pfdInit "scan")
    { data := "bambulab:xyz", type := "QRCODE", raw := "bambulab:xyz" }
    (fun _ => none) (Or.inl (by decide))

/- ## Merge helper lemmas -/

/-- Reduction of `enhance_with_barcode_data` on a present barcode. -/
theorem enhance_some_eq (rec : FilamentRecord) (b : BarcodeData)
    (api : String → Option (List ApiItem)) :
    enhance_with_barcode_data rec (some b) api =
      (if b.data.isEmpty then rec
       else if !(retailTypes.contains b.type) then rec
       else
         match lookup_barcode_product b.data b.type (api b.data) with
         | none => rec
         | some p => mergeProduct rec p) := rfl

/-- Every property that holds of the input record and of every merged record
holds of the enhanced record. -/
theorem enhance_cases (rec : FilamentRecord) (b : BarcodeData)
    (api : String → Option (List ApiItem)) (P : FilamentRecord → Prop)
    (hrec : P rec) (hmerge : ∀ p, P (mergeProduct rec p)) :
    P (enhance_with_barcode_data rec (some b) api) := by
  rw [enhance_some_eq]
  by_cases h1 : b.data.isEmpty = true
  · rw [if_pos h1]
    exact hrec
  · rw [if_neg h1]
    by_cases h2 : (!retailTypes.contains b.type) = true
    · rw [if_pos h2]
      exact hrec
    · rw [if_neg h2]
      cases hp : lookup_barcode_product b.data b.type (api b.data) with
      | none => exact hrec
      | some p => exact hmerge p

/-- `mergeProduct` keeps a truthy `brand`. -/
theorem mergeProduct_brand_keep (parsed : FilamentRecord) (p : ProductInfo)
    (h : pyTruthyS parsed.brand = true) :
    (mergeProduct parsed p).brand = parsed.brand := by
  have hred : (mergeProduct parsed p).brand =
      (if pyTruthyS parsed.brand = false ∧ pyTruthyS p.brand = true then p.brand
       else parsed.brand) := rfl
  rw [hred, if_neg]
  intro hc
  rw [h] at hc
  exact absurd hc.1 (by decide)

/-- `mergeProduct` keeps a truthy `material`. -/
theorem mergeProduct_material_keep (parsed : FilamentRecord) (p : ProductInfo)
    (h : pyTruthyS parsed.material = true) :
    (mergeProduct parsed p).material = parsed.material := by
  have hred : (mergeProduct parsed p).material =
      (if pyTruthyS parsed.material = false ∧ pyTruthyS p.material = true then p.material
       else parsed.material) := rfl
  rw [hred, if_neg]
  intro hc
  rw [h] at hc
  exact absurd hc.1 (by decide)

/-- `mergeProduct` keeps a truthy `weight_g`. -/
theorem mergeProduct_weight_keep (parsed : FilamentRecord) (p : ProductInfo)
    (h : pyTruthyN parsed.weight_g = true) :
    (mergeProduct parsed p).weight_g = parsed.weight_g := by
  have hred : (mergeProduct parsed p).weight_g =
      (if pyTruthyN parsed.weight_g = false ∧ pyTruthyN p.weight_g = true then p.weight_g
       else parsed.weight_g) := rfl
  rw [hred, if_neg]
  intro hc
  rw [h] at hc
  exact absurd hc.1 (by decide)

/-- `mergeProduct` keeps a nonzero `diameter`. -/
theorem mergeProduct_dia_keep (parsed : FilamentRecord) (p : ProductInfo)
    (h : parsed.diameter ≠ 0) :
    (mergeProduct parsed p).diameter = parsed.diameter := by
  have hred : (mergeProduct parsed p).diameter =
      (if parsed.diameter = 0 ∧ pyTruthyQ p.diameter = true then
        p.diameter.getD parsed.diameter
       else parsed.diameter) := rfl
  rw [hred, if_neg]
  intro hc
  exact h hc.1

/- ## Claim C10 -/

/-- Claim C10: the diameter produced by the Text Pattern Matcher is always one of
the truthy values 1.75 (the default), 2.85 or 3.00, so the diameter branch of
`enhance_with_barcode_data`, which is guarded by the diameter being falsy, can
never fire: the enhancement leaves the diameter of every matcher-produced record
unchanged (and more generally of every record with nonzero diameter). -/
theorem diameter_never_enhanced (text : String) (bc : Option BarcodeData)
    (rec : FilamentRecord) (b2 : Option BarcodeData)
    (api : String → Option (List ApiItem)) :
    ((parse_filament_data text bc).diameter = 1.75
      ∨ (parse_filament_data text bc).diameter = 2.85
      ∨ (parse_filament_data text bc).diameter = 3)
    ∧ (rec.diameter ≠ 0 →
        (enhance_with_barcode_data rec b2 api).diameter = rec.diameter)
    ∧ (enhance_with_barcode_data (parse_filament_data text bc) b2 api).diameter =
        (parse_filament_data text bc).diameter := by
  have hmem : (parse_filament_data text bc).diameter = 1.75
      ∨ (parse_filament_data text bc).diameter = 2.85
      ∨ (parse_filament_data text bc).diameter = 3 := by
    rw [parse_diameter_eq]
    cases hd : diaSearch text.toList with
    | some q =>
      simp only [hd]
      exact diaSearch_mem _ _ hd
    | none =>
      simp only [hd]
      exact Or.inl trivial
  have hkeep : ∀ (r : FilamentRecord), r.diameter ≠ 0 → ∀ (b3 : Option BarcodeData),
      (enhance_with_barcode_data r b3 api).diameter = r.diameter := by
    intro r hr b3
    cases b3 with
    | none => rfl
    | some b =>
      exact enhance_cases r b api (fun x => x.diameter = r.diameter) rfl
        (fun p => mergeProduct_dia_keep r p hr)
  have hnz : (parse_filament_data text bc).diameter ≠ 0 := by
    rcases hmem with h | h | h <;> rw [h] <;> norm_num
  exact ⟨hmem, fun h => hkeep rec h b2, hkeep _ hnz b2⟩

/-- Witness for C10 at a concrete text, record and oracles. -/
theorem diameter_never_enhanced_witness :
    ((parse_filament_data "x" none).diameter = 1.75
      ∨ (parse_filament_data "x" none).diameter = 2.85
      ∨ (parse_filament_data "x" none).diameter = 3)
    ∧ (enhance_with_barcode_data (pfdInit "x") none (fun _ => none)).diameter =
        (pfdInit "x").diameter
    ∧ (enhance_with_barcode_data (parse_filament_data "x" none) none
        (fun _ => none)).diameter = (parse_filament_data "x" none).diameter :=
  ⟨(diameter_never_enhanced "x" none (pfdInit "x") none (fun _ => none)).1,
   (diameter_never_enhanced "x" none (pfdInit "x") none (fun _ => none)).2.1
     (show (1.75 : ℚ) ≠ 0 by norm_num),
   (diameter_never_enhanced "x" none (pfdInit "x") none (fun _ => none)).2.2⟩

/- ## Claim C3 -/

/-- `mergeWeb` keeps a truthy string field; stated for each of the four guarded
string fields via the common reduction. -/
theorem mergeWeb_brand_keep (parsed : FilamentRecord) (web : WebInfo)
    (h : pyTruthyS parsed.brand = true) :
    (mergeWeb parsed web).brand = parsed.brand := by
  have hred : (mergeWeb parsed web).brand =
      (if pyTruthyS parsed.brand = false ∧ pyTruthyS web.brand = true then web.brand
       else parsed.brand) := rfl
  rw [hred, if_neg]
  intro hc
  rw [h] at hc
  exact absurd hc.1 (by decide)

/-- `mergeWeb` keeps a truthy `material`. -/
theorem mergeWeb_material_keep (parsed : FilamentRecord) (web : WebInfo)
    (h : pyTruthyS parsed.material = true) :
    (mergeWeb parsed web).material = parsed.material := by
  have hred : (mergeWeb parsed web).material =
      (if pyTruthyS parsed.material = false ∧ pyTruthyS web.material = true then
        web.material
       else parsed.material) := rfl
  rw [hred, if_neg]
  intro hc
  rw [h] at hc
  exact absurd hc.1 (by decide)

/-- `mergeWeb` keeps a truthy `color_name`. -/
theorem mergeWeb_color_keep (parsed : FilamentRecord) (web : WebInfo)
    (h : pyTruthyS parsed.color_name = true) :
    (mergeWeb parsed web).color_name = parsed.color_name := by
  have hred : (mergeWeb parsed web).color_name =
      (if pyTruthyS parsed.color_name = false ∧ pyTruthyS web.color_name = true then
        web.color_name
       else parsed.color_name) := rfl
  rw [hred, if_neg]
  intro hc
  rw [h] at hc
  exact absurd hc.1 (by decide)

/-- `mergeWeb` keeps a truthy `color_hex`. -/
theorem mergeWeb_hex_keep (parsed : FilamentRecord) (web : WebInfo)
    (h : pyTruthyS parsed.color_hex = true) :
    (mergeWeb parsed web).color_hex = parsed.color_hex := by
  have hred : (mergeWeb parsed web).color_hex =
      (if pyTruthyS parsed.color_hex = false ∧ pyTruthyS web.color_hex = true then
        web.color_hex
       else parsed.color_hex) := rfl
  rw [hred, if_neg]
  intro hc
  rw [h] at hc
  exact absurd hc.1 (by decide)

/-- `mergeWeb` keeps a truthy `weight_g`. -/
theorem mergeWeb_weight_keep (parsed : FilamentRecord) (web : WebInfo)
    (h : pyTruthyN parsed.weight_g = true) :
    (mergeWeb parsed web).weight_g = parsed.weight_g := by
  have hred : (mergeWeb parsed web).weight_g =
      (if pyTruthyN parsed.weight_g = false ∧ pyTruthyN web.weight_g = true then
        web.weight_g
       else parsed.weight_g) := rfl
  rw [hred, if_neg]
  intro hc
  rw [h] at hc
  exact absurd hc.1 (by decide)

/-- Claim C3 (amended): both enrichment merges are strictly additive on every
FilamentRecord field — a populated (truthy) field of the accumulator is left
unchanged, and fields a merge does not handle are always unchanged.  The one
exception, forced by the counterexample below, is the auxiliary `product_title`
reference stored by the barcode merge, which is written unconditionally whenever
the product lookup returns a title. -/
theorem additive_merge_amended (rec : FilamentRecord) (b : BarcodeData)
    (api : String → Option (List ApiItem)) (web : WebInfo) :
    ((pyTruthyS rec.brand = true →
        (enhance_with_barcode_data rec (some b) api).brand = rec.brand)
     ∧ (pyTruthyS rec.material = true →
        (enhance_with_barcode_data rec (some b) api).material = rec.material)
     ∧ (pyTruthyN rec.weight_g = true →
        (enhance_with_barcode_data rec (some b) api).weight_g = rec.weight_g)
     ∧ (rec.diameter ≠ 0 →
        (enhance_with_barcode_data rec (some b) api).diameter = rec.diameter)
     ∧ (enhance_with_barcode_data rec (some b) api).temp_nozzle = rec.temp_nozzle
     ∧ (enhance_with_barcode_data rec (some b) api).color_name = rec.color_name
     ∧ (enhance_with_barcode_data rec (some b) api).color_hex = rec.color_hex
     ∧ (enhance_with_barcode_data rec (some b) api).filament_code = rec.filament_code
     ∧ (enhance_with_barcode_data rec (some b) api).barcode = rec.barcode
     ∧ (enhance_with_barcode_data rec (some b) api).barcode_type = rec.barcode_type
     ∧ (enhance_with_barcode_data rec (some b) api).raw_text = rec.raw_text)
    ∧ ((pyTruthyS rec.brand = true → (mergeWeb rec web).brand = rec.brand)
     ∧ (pyTruthyS rec.material = true → (mergeWeb rec web).material = rec.material)
     ∧ (pyTruthyS rec.color_name = true →
        (mergeWeb rec web).color_name = rec.color_name)
     ∧ (pyTruthyS rec.color_hex = true → (mergeWeb rec web).color_hex = rec.color_hex)
     ∧ (pyTruthyN rec.weight_g = true → (mergeWeb rec web).weight_g = rec.weight_g)
     ∧ (mergeWeb rec web).diameter = rec.diameter
     ∧ (mergeWeb rec web).temp_nozzle = rec.temp_nozzle
     ∧ (mergeWeb rec web).filament_code = rec.filament_code
     ∧ (mergeWeb rec web).raw_text = rec.raw_text
     ∧ (mergeWeb rec web).barcode = rec.barcode
     ∧ (mergeWeb rec web).barcode_type = rec.barcode_type
     ∧ (mergeWeb rec web).product_title = rec.product_title) := by
  refine ⟨⟨?_, ?_, ?_, ?_, ?_, ?_, ?_, ?_, ?_, ?_, ?_⟩,
    fun h => mergeWeb_brand_keep rec web h,
    fun h => mergeWeb_material_keep rec web h,
    fun h => mergeWeb_color_keep rec web h,
    fun h => mergeWeb_hex_keep rec web h,
    fun h => mergeWeb_weight_keep rec web h,
    rfl, rfl, rfl, rfl, rfl, rfl, rfl⟩
  · intro h
    exact enhance_cases rec b api (fun x => x.brand = rec.brand) rfl
      (fun p => mergeProduct_brand_keep rec p h)
  · intro h
    exact enhance_cases rec b api (fun x => x.material = rec.material) rfl
      (fun p => mergeProduct_material_keep rec p h)
  · intro h
    exact enhance_cases rec b api (fun x => x.weight_g = rec.weight_g) rfl
      (fun p => mergeProduct_weight_keep rec p h)
  · intro h
    exact enhance_cases rec b api (fun x => x.diameter = rec.diameter) rfl
      (fun p => mergeProduct_dia_keep rec p h)
  · exact enhance_cases rec b api (fun x => x.temp_nozzle = rec.temp_nozzle) rfl
      (fun p => rfl)
  · exact enhance_cases rec b api (fun x => x.color_name = rec.color_name) rfl
      (fun p => rfl)
  · exact enhance_cases rec b api (fun x => x.color_hex = rec.color_hex) rfl
      (fun p => rfl)
  · exact enhance_cases rec b api (fun x => x.filament_code = rec.filament_code) rfl
      (fun p => rfl)
  · exact enhance_cases rec b api (fun x => x.barcode = rec.barcode) rfl
      (fun p => rfl)
  · exact enhance_cases rec b api (fun x => x.barcode_type = rec.barcode_type) rfl
      (fun p => rfl)
  · exact enhance_cases rec b api (fun x => x.raw_text = rec.raw_text) rfl
      (fun p => rfl)

/-- An accumulator whose `product_title` is already populated. -/
def c3rec : FilamentRecord := { pfdInit "t" with product_title := some "X" }

/-- A retail barcode used by the C3 scenarios. -/
def c3bc : BarcodeData :=
  { data := "012345678905", type := "EAN13", raw := "012345678905" }

/-- A catalog oracle returning one item whose title is "Y". -/
def c3api : String → Option (List ApiItem) := fun _ =>
  some [{ brand := none, title := some "Y", description := none, category := none,
          images := [] }]

/-- Counterexample to C3 as stated: the populated `product_title` field of the
accumulator is overwritten by the barcode enrichment merge. -/
theorem additive_merge_counterexample :
    c3rec.product_title = some "X"
    ∧ (enhance_with_barcode_data c3rec (some c3bc) c3api).product_title = some "Y"
    ∧ (some "Y" : Option String) ≠ some "X" :=
  ⟨rfl, rfl, by decide⟩

/-- A fully populated accumulator record. -/
def c3wrec : FilamentRecord :=
  { brand := some "eSun", material := some "PLA", weight_g := some 1000,
    diameter := 1.75, temp_nozzle := some "190-220", color_name := some "Black",
    color_hex := some "#000000", filament_code := some "13612", raw_text := "t",
    barcode := some "012345678905", barcode_type := some "EAN13",
    product_title := some "T" }

/-- A fully populated web lookup result. -/
def c3wweb : WebInfo :=
  { brand := some "Sunlu", material := some "PETG", color_name := some "Red",
    color_hex := some "#FF0000", weight_g := some 250 }

/-- Witness for C3 (amended): every guarded conclusion at a concrete populated
record, barcode, catalog oracle and web result. -/
theorem additive_merge_amended_witness :
    (enhance_with_barcode_data c3wrec (some c3bc) c3api).brand = c3wrec.brand
    ∧ (enhance_with_barcode_data c3wrec (some c3bc) c3api).material = c3wrec.material
    ∧ (enhance_with_barcode_data c3wrec (some c3bc) c3api).weight_g = c3wrec.weight_g
    ∧ (enhance_with_barcode_data c3wrec (some c3bc) c3api).diameter = c3wrec.diameter
    ∧ (mergeWeb c3wrec c3wweb).brand = c3wrec.brand
    ∧ (mergeWeb c3wrec c3wweb).material = c3wrec.material
    ∧ (mergeWeb c3wrec c3wweb).color_name = c3wrec.color_name
    ∧ (mergeWeb c3wrec c3wweb).color_hex = c3wrec.color_hex
    ∧ (mergeWeb c3wrec c3wweb).weight_g = c3wrec.weight_g :=
  ⟨(additive_merge_amended c3wrec c3bc c3api c3wweb).1.1 rfl,
   (additive_merge_amended c3wrec c3bc c3api c3wweb).1.2.1 rfl,
   (additive_merge_amended c3wrec c3bc c3api c3wweb).1.2.2.1 rfl,
   (additive_merge_amended c3wrec c3bc c3api c3wweb).1.2.2.2.1
     (show (1.75 : ℚ) ≠ 0 by norm_num),
   (additive_merge_amended c3wrec c3bc c3api c3wweb).2.1 rfl,
   (additive_merge_amended c3wrec c3bc c3api c3wweb).2.2.1 rfl,
   (additive_merge_amended c3wrec c3bc c3api c3wweb).2.2.2.1 rfl,
   (additive_merge_amended c3wrec c3bc c3api c3wweb).2.2.2.2.1 rfl,
   (additive_merge_amended c3wrec c3bc c3api c3wweb).2.2.2.2.2.1 rfl⟩

/- ## Claim C2 -/

/-- Counterexample to C2 as stated: the OCR-text matcher stores the raw alias
"Bambu", not the canonical "Bambu Lab". -/
theorem brand_alias_counterexample :
    (parse_filament_data "Bambu" none).brand = some "Bambu"
    ∧ ("Bambu" : String) ≠ "Bambu Lab" :=
  ⟨rfl, by decide⟩

/-- Claim C2 (amended): for every text containing the whole word "Bambu"
(case-insensitively), the web-search-result matcher normalizes the brand to
"Bambu Lab", while the OCR-text matcher stores the raw alias "Bambu" (for every
optional barcode input). -/
theorem brand_alias_amended (text : String) (bc : Option BarcodeData)
    (h : cwci text.toList "Bambu" = true) :
    (parse_string_info text).brand = some "Bambu Lab"
    ∧ (parse_filament_data text bc).brand = some "Bambu" := by
  constructor
  · have hred : (parse_string_info text).brand =
        (match webBrands.find? (fun b => cwci text.toList b) with
         | some b => if strLower b = "bambu" then some "Bambu Lab" else some b
         | none => none) := rfl
    rw [hred]
    cases h1 : cwci text.toList "Bambu Lab" with
    | true =>
      simp only [webBrands, List.find?, h1]
      rw [if_neg (by decide)]
    | false =>
      simp only [webBrands, List.find?, h1, h]
      rw [if_pos (by decide)]
  · rw [parse_brand_eq]
    simp only [ocrBrands, List.find?, h]

/-- Witness for C2 (amended) at the concrete text "Bambu". -/
theorem brand_alias_amended_witness :
    (parse_string_info "Bambu").brand = some "Bambu Lab"
    ∧ (parse_filament_data "Bambu" none).brand = some "Bambu" :=
  brand_alias_amended "Bambu" none rfl

/- ## Claim C1 -/

/-- Counterexample to C1 as stated: with a decoded EAN13 barcode, a
"Filament Code" match in the OCR text overwrites the barcode payload, and with a
Bambu QR code, a brand-list match in the OCR text overwrites the QR-derived
brand. -/
theorem barcode_precedence_counterexample :
    (parse_filament_data "Filament Code 13612"
        (some { data := "012345678905", type := "EAN13",
                raw := "012345678905" })).filament_code = some "13612"
    ∧ (some "13612" : Option String) ≠ some "012345678905"
    ∧ (parse_filament_data "Overture PLA"
        (some { data := "bambulab:xyz", type := "QRCODE",
                raw := "bambulab:xyz" })).brand = some "Overture"
    ∧ (some "Overture" : Option String) ≠ some "Bambu Lab" :=
  ⟨rfl, by decide, rfl, by decide⟩

/-- Claim C1 (amended): barcode-derived fields are written before the OCR text is
parsed, but the text patterns run unconditionally afterwards; hence a retail
barcode payload survives as `filament_code` exactly when the text matches neither
the "Filament Code" pattern nor the SKU pattern, and a QR-derived brand survives
exactly when no brand-list word occurs in the text. -/
theorem barcode_precedence_amended (text : String) (b : BarcodeData) :
    (retailTypes.contains b.type = true → fcSearch text.toList = none →
      skuSearch text.toList = none →
      (parse_filament_data text (some b)).filament_code = some b.data)
    ∧ (b.type = "QRCODE" →
       listSubstr "bambulab".toList (strLower b.data).data = true →
       ocrBrands.find? (fun br => cwci text.toList br) = none →
       (parse_filament_data text (some b)).brand = some "Bambu Lab") := by
  constructor
  · intro hr hfc hsku
    rw [parse_fc_eq]
    simp only [hfc, hsku]
    rw [if_pos hr]
  · intro hq hsub hfind
    rw [parse_brand_eq]
    simp only [hfind, hq, hsub]
    decide

/-- Witness for C1 (amended): on a text with no code/SKU/brand matches, the
EAN13 payload and the QR-derived brand survive. -/
theorem barcode_precedence_amended_witness :
    (parse_filament_data "plain label"
        (some { data := "012345678905", type := "EAN13",
                raw := "012345678905" })).filament_code = some "012345678905"
    ∧ (parse_filament_data "plain label"
        (some { data := "bambulab:xyz", type := "QRCODE",
                raw := "bambulab:xyz" })).brand = some "Bambu Lab" :=
  ⟨(barcode_precedence_amended "plain label"
      { data := "012345678905", type := "EAN13", raw := "012345678905" }).1
      rfl rfl rfl,
   (barcode_precedence_amended "plain label"
      { data := "bambulab:xyz", type := "QRCODE", raw := "bambulab:xyz" }).2
      rfl rfl rfl⟩

/- ## Claim C5 -/

/-- Claim C5: web-fallback gating.  After parsing and barcode enhancement, the
orchestrator invokes the web search fallback if and only if `filament_code` is
truthy and at least one of brand, material, color_name is still missing: when the
gate holds the response record is the web merge applied to the result of the
chosen search oracle, and when it fails the response record is the enhanced
record itself, identical for every search oracle (no web call is made). -/
theorem web_fallback_gating (fl : String) (bc : Option BarcodeData) (ta : Bool)
    (runs : Except String (String × String × String))
    (api : String → Option (List ApiItem)) :
    (let raw_text := extract_text ta runs
     let parsed_data := parse_filament_data raw_text bc
     let parsed_data2 :=
       if bc.isSome then enhance_with_barcode_data parsed_data bc api
       else parsed_data
     (∀ search : String → Option (List String),
        pyTruthyS parsed_data2.filament_code = true →
        (pyTruthyS parsed_data2.brand = false ∨ pyTruthyS parsed_data2.material = false ∨
          pyTruthyS parsed_data2.color_name = false) →
        process_scan fl true bc ta runs api search =
          { status := "success", file_path := some fl,
            ocr_data := some (mergeWeb parsed_data2
              (lookup_filament_code (parsed_data2.filament_code.getD "") search)),
            debug_text := some raw_text, message := none })
     ∧ (∀ search : String → Option (List String),
        (pyTruthyS parsed_data2.filament_code = false ∨
          (pyTruthyS parsed_data2.brand = true ∧ pyTruthyS parsed_data2.material = true ∧
            pyTruthyS parsed_data2.color_name = true)) →
        process_scan fl true bc ta runs api search =
          { status := "success", file_path := some fl, ocr_data := some parsed_data2,
            debug_text := some raw_text, message := none })) := by
  dsimp only
  constructor
  · intro search h1 h2
    have hg : webGate (if bc.isSome then
        enhance_with_barcode_data (parse_filament_data (extract_text ta runs) bc) bc api
        else parse_filament_data (extract_text ta runs) bc) = true := by
      simp only [webGate, h1, Bool.true_and]
      rcases h2 with h | h | h <;> simp [h]
    simp only [process_scan, if_true, hg]
  · intro search h
    have hg : webGate (if bc.isSome then
        enhance_with_barcode_data (parse_filament_data (extract_text ta runs) bc) bc api
        else parse_filament_data (extract_text ta runs) bc) = false := by
      rcases h with h | h
      · simp [webGate, h]
      · rcases h with ⟨hb, hm, hc⟩
        simp [webGate, hb, hm, hc]
    simp only [process_scan, if_true, hg, Bool.false_eq_true, if_false]

/-- Retail barcode used by the C5 witness scenario with a missing brand. -/
def c5bc : BarcodeData :=
  { data := "012345678905", type := "EAN13", raw := "012345678905" }

/-- The record reaching the web-gate in the C5 triggering scenario. -/
def c5parsed : FilamentRecord :=
  if (some c5bc).isSome then
    enhance_with_barcode_data
      (parse_filament_data (extract_text true (Except.error "x")) (some c5bc))
      (some c5bc) (fun _ => none)
  else parse_filament_data (extract_text true (Except.error "x")) (some c5bc)

/-- The record reaching the web-gate in the C5 non-triggering scenario. -/
def c5plain : FilamentRecord :=
  if (none : Option BarcodeData).isSome then
    enhance_with_barcode_data
      (parse_filament_data (extract_text true (Except.error "x")) none)
      none (fun _ => none)
  else parse_filament_data (extract_text true (Except.error "x")) none

/-- Witness for C5: with a retail barcode and missing brand the search result is
merged; with no filament code the response is the record itself. -/
theorem web_fallback_gating_witness :
    process_scan "f" true (some c5bc) true (Except.error "x") (fun _ => none)
        (fun _ => some []) =
      { status := "success", file_path := some "f",
        ocr_data := some (mergeWeb c5parsed
          (lookup_filament_code (c5parsed.filament_code.getD "") (fun _ => some []))),
        debug_text := some (extract_text true (Except.error "x")), message := none }
    ∧ process_scan "f" true none true (Except.error "x") (fun _ => none)
        (fun _ => some []) =
      { status := "success", file_path := some "f", ocr_data := some c5plain,
        debug_text := some (extract_text true (Except.error "x")), message := none } :=
  ⟨(web_fallback_gating "f" (some c5bc) true (Except.error "x") (fun _ => none)).1
      (fun _ => some []) rfl (Or.inl rfl),
   (web_fallback_gating "f" none true (Except.error "x") (fun _ => none)).2
      (fun _ => some []) (Or.inl rfl)⟩

/- ## Claim C7 -/

/-- Claim C7: single fatal condition.  The scan pipeline returns an error result
(status "error", no record) exactly when opening/preprocessing the image fails;
whenever the image opens, it returns a success result carrying a FilamentRecord
and the raw text, for every outcome of barcode decoding, OCR, product lookup and
web search (all stage failures are absorbed as oracle outcomes, never raised). -/
theorem single_fatal_condition (fl : String) (bc : Option BarcodeData) (ta : Bool)
    (runs : Except String (String × String × String))
    (api : String → Option (List ApiItem))
    (search : String → Option (List String)) :
    process_scan fl false bc ta runs api search =
      { status := "error", file_path := none, ocr_data := none, debug_text := none,
        message := some "Failed to process image" }
    ∧ (process_scan fl true bc ta runs api search).status = "success"
    ∧ (∃ rec : FilamentRecord,
        (process_scan fl true bc ta runs api search).ocr_data = some rec)
    ∧ (process_scan fl true bc ta runs api search).debug_text =
        some (extract_text ta runs)
    ∧ (∀ pok : Bool,
        ((process_scan fl pok bc ta runs api search).status = "error" ↔ pok = false)) := by
  refine ⟨rfl, rfl, ⟨_, rfl⟩, rfl, ?_⟩
  intro pok
  cases pok <;> simp [process_scan]

/-- Witness for C7 at concrete oracles (failing OCR, no barcode, empty lookups). -/
theorem single_fatal_condition_witness :
    process_scan "f" false none true (Except.error "x") (fun _ => none)
        (fun _ => none) =
      { status := "error", file_path := none, ocr_data := none, debug_text := none,
        message := some "Failed to process image" }
    ∧ (process_scan "f" true none true (Except.error "x") (fun _ => none)
        (fun _ => none)).status = "success" :=
  ⟨(single_fatal_condition "f" none true (Except.error "x") (fun _ => none)
      (fun _ => none)).1,
   (single_fatal_condition "f" none true (Except.error "x") (fun _ => none)
      (fun _ => none)).2.1⟩
